import Mathlib

/-!
Shallow embedding of the `dtproject` library (`src/dtproject/dtproject.py` and
`src/dtproject/exceptions.py`) together with theorems checking the project's
natural-language specification against the code.

Modelling conventions:
* Python exceptions become an explicit error type `PyErr`; fallible methods
  return `Except PyErr _`.
* Strings are modelled as Lean `String`s restricted to ASCII content; in
  particular the regex class `\w` used by `re.sub(r"[^\w\-.]", "-", s)` is
  modelled as ASCII `[A-Za-z0-9_]`.
* Filesystem paths handled by glob expansion are modelled as lists of path
  components (`PathC`); filesystem observations (`glob`, `isdir`,
  `os.path.exists`, `os.listdir`, executability, shebang detection) are oracle
  parameters, as are the static lookup tables that live outside the embedded
  sources (`TEMPLATE_TO_SRC`, `TEMPLATE_TO_ASSETS`, `REQUIRED_METADATA_KEYS`,
  `REQUIRED_METADATA_PER_TYPE_KEYS`) and the external collaborators
  (`get_recipe_project_dir`, `clone_recipe`, `update_recipe`,
  `parse_configurations`).
-/

namespace DTProject

/-- Error type covering the Python exceptions raised by the embedded code
(`exceptions.py` plus the built-in `OSError`, `ValueError`, `KeyError`,
`NotImplementedError`). `UsageError` stands for the fatal input error raised
by `assert_canonical_arch` (modelled from the spec, the helper lives outside
the embedded sources). -/
inductive PyErr where
  | OSError (msg : String)
  | DTProjectNotFound (msg : String)
  | MalformedDTProject (msg : String)
  | UnsupportedDTProjectVersion (msg : String)
  | RecipeProjectNotFound (msg : String)
  | NotImplementedError (msg : String)
  | ValueError (msg : String)
  | KeyError (key : String)
  | UsageError (msg : String)
  deriving DecidableEq, Repr

/-- Truthiness of Python `Optional[str]`: `None` and the empty string are
falsy, every other string is truthy. -/
def pyTruthy (o : Option String) : Bool :=
  match o with
  | some s => s ≠ ""
  | none => false

/-- Python `int(s)` on a string, returning `none` where Python raises
`ValueError`: optional surrounding whitespace, an optional sign, then one or
more ASCII digits (digit-group underscores are not modelled). -/
def pyInt (s : String) : Option Int :=
  let cs := ((s.data.dropWhile Char.isWhitespace).reverse.dropWhile Char.isWhitespace).reverse
  let (sign, digits) :=
    match cs with
    | '-' :: rest => ((-1 : Int), rest)
    | '+' :: rest => ((1 : Int), rest)
    | _ => ((1 : Int), cs)
  if digits.length > 0 && digits.all Char.isDigit then
    some (sign * (digits.foldl (fun a c => a * 10 + (c.toNat - Char.toNat '0')) (0 : Nat) : Nat))
  else
    none

/-- Embedding of `re.sub(r"[^\w\-.]", "-", s)` (ASCII reading of the word
class): every character outside `[A-Za-z0-9_.-]` is replaced by a dash. -/
def sanitize (s : String) : String :=
  ⟨s.data.map (fun c => if c.isAlphanum || c == '_' || c == '-' || c == '.' then c else '-')⟩

/-- Repository identity populated by `DTProject._get_repo_info` via the
version-control collaborator (`SimpleNamespace` built in `__init__`).
`name` is `Optional` because `_get_repo_info` leaves `repo = None` when the
origin URL cannot be read. -/
structure Repository where
  name : Option String
  sha : String
  detached : Bool
  branch : String
  head_version : String
  closest_version : String
  index_nmodified : Nat
  index_nadded : Nat

/-- Embedding of the property `DTProject.head_version`. -/
def head_version (repo : Option Repository) : String :=
  match repo with
  | some r => r.head_version
  | none => "latest"

/-- Embedding of the property `DTProject.version_name`. -/
def version_name (repo : Option Repository) : String :=
  match repo with
  | some r => if r.branch ≠ "HEAD" then r.branch else head_version (some r)
  | none => "latest"

/-- Embedding of the property `DTProject.safe_version_name`. -/
def safe_version_name (repo : Option Repository) : String :=
  sanitize (version_name repo)

/-- Embedding of `DTProject.is_clean`. -/
def is_clean (repo : Option Repository) : Bool :=
  match repo with
  | some r => r.index_nmodified + r.index_nadded == 0
  | none => true

/-- Embedding of `DTProject.is_release`. -/
def is_release (repo : Option Repository) : Bool :=
  if !is_clean repo then false
  else
    match repo with
    | some r => if r.head_version ≠ "ND" then true else false
    | none => false

/-- Modelled from the spec: `assert_canonical_arch` (defined in
`utils/misc.py`, outside the embedded sources) validates the architecture
against a fixed canonical-architecture set — "invalid architecture is a fatal
input error". The set is abstracted as the predicate `canonical`. -/
def assert_canonical_arch (canonical : String → Bool) (arch : String) : Except PyErr Unit :=
  if canonical arch then .ok () else .error (.UsageError ("Architecture " ++ arch ++ " not supported!"))

/-- Embedding of `DTProject.image`. `name` is the resolved project name and
`repo` the repository identity (used only for the default version). -/
def image (canonical : String → Bool) (name : String) (repo : Option Repository)
    (arch registry owner : String) (version : Option String) (loop docs : Bool)
    (extra : Option String) : Except PyErr String :=
  match assert_canonical_arch canonical arch with
  | .error e => .error e
  | .ok _ =>
    let loopS := if loop then "-LOOP" else ""
    let docsS := if docs then "-docs" else ""
    let extraS := if pyTruthy extra then "-" ++ extra.getD "" else ""
    let ver := match version with
      | some v => v
      | none => safe_version_name repo
    .ok (registry ++ "/" ++ owner ++ "/" ++ name ++ ":" ++ ver ++ extraS ++ loopS ++ docsS ++ "-" ++ arch)

/-- Embedding of `DTProject.image_release`. -/
def image_release (canonical : String → Bool) (name : String) (repo : Option Repository)
    (arch owner registry : String) (docs : Bool) : Except PyErr String :=
  if !is_release repo then .error (.ValueError "The project repository is not in a release state")
  else
    match assert_canonical_arch canonical arch with
    | .error e => .error e
    | .ok _ =>
      let docsS := if docs then "-docs" else ""
      let version := sanitize (head_version repo)
      .ok (registry ++ "/" ++ owner ++ "/" ++ name ++ ":" ++ version ++ docsS ++ "-" ++ arch)

/-- Tag format written out exactly as the spec words it:
`registry/owner/name:version[-extra][-LOOP][-docs]-arch` (the optional extra
segment appears when a non-empty extra suffix is supplied). -/
def specImageTag (registry owner name version : String) (extra : Option String)
    (loop docs : Bool) (arch : String) : String :=
  registry ++ "/" ++ owner ++ "/" ++ name ++ ":" ++ version
    ++ (if pyTruthy extra then "-" ++ extra.getD "" else "")
    ++ (if loop then "-LOOP" else "")
    ++ (if docs then "-docs" else "")
    ++ "-" ++ arch

/-- C3: on a project named "foo", `image(arch="amd64", registry="r",
owner="o", version="v")` returns exactly `r/o/foo:v-amd64`; with
`loop=true, docs=true` it returns `r/o/foo:v-LOOP-docs-amd64`; in general the
tag is `registry/owner/name:version[-extra][-LOOP][-docs]-arch`; and for every
non-canonical architecture string the call fails (with a usage error, before
any tag string is constructed). -/
theorem c3_image_tag (canonical : String → Bool) (repo : Option Repository)
    (h : canonical "amd64" = true) :
    image canonical "foo" repo "amd64" "r" "o" (some "v") false false none = .ok "r/o/foo:v-amd64"
    ∧ image canonical "foo" repo "amd64" "r" "o" (some "v") true true none
        = .ok "r/o/foo:v-LOOP-docs-amd64"
    ∧ (∀ name arch registry owner v loop docs extra, canonical arch = true →
        image canonical name repo arch registry owner (some v) loop docs extra
          = .ok (specImageTag registry owner name v extra loop docs arch))
    ∧ (∀ name arch registry owner version loop docs extra, canonical arch = false →
        image canonical name repo arch registry owner version loop docs extra
          = .error (.UsageError ("Architecture " ++ arch ++ " not supported!"))) := by
  refine ⟨?_, ?_, ?_, ?_⟩
  · simp [image, assert_canonical_arch, h, pyTruthy]
  · simp [image, assert_canonical_arch, h, pyTruthy]
  · intro name arch registry owner v loop docs extra hc
    simp [image, assert_canonical_arch, hc, specImageTag]
  · intro name arch registry owner version loop docs extra hc
    simp [image, assert_canonical_arch, hc]

/-- Concrete instantiation of `c3_image_tag` with the canonical set
`{ "amd64" }`. -/
theorem c3_image_tag_witness :
    image (fun a => a == "amd64") "foo" none "amd64" "r" "o" (some "v") false false none
      = .ok "r/o/foo:v-amd64" :=
  (c3_image_tag (fun a => a == "amd64") none (by decide)).1

/-- C4: `image_release` fails with a usage error whenever the repository state
is not a release state (modified or added files present, or no resolvable head
tag); on a clean, head-tagged project (with a canonical architecture) it
returns `registry/owner/name:version[-docs]-arch` where `version` is the head
tag with every character outside `[A-Za-z0-9_.-]` replaced by a dash. -/
theorem c4_image_release (canonical : String → Bool) :
    (∀ name repo arch owner registry docs,
      ((∃ r, repo = some r ∧ 0 < r.index_nmodified + r.index_nadded)
        ∨ repo = none ∨ head_version repo = "ND") →
      image_release canonical name repo arch owner registry docs
        = .error (.ValueError "The project repository is not in a release state"))
    ∧ (∀ name (r : Repository) arch owner registry docs,
        r.index_nmodified + r.index_nadded = 0 → r.head_version ≠ "ND" →
        canonical arch = true →
        image_release canonical name (some r) arch owner registry docs
          = .ok (registry ++ "/" ++ owner ++ "/" ++ name ++ ":" ++ sanitize r.head_version
              ++ (if docs then "-docs" else "") ++ "-" ++ arch))
    ∧ sanitize "v1.2.3!" = "v1.2.3-" := by
  refine ⟨?_, ?_, by decide⟩
  · intro name repo arch owner registry docs hbad
    rcases hbad with ⟨r, rfl, hpos⟩ | rfl | hnd
    · have hclean : is_clean (some r) = false := by
        simp [is_clean]
        omega
      simp [image_release, is_release, hclean]
    · simp [image_release, is_release, is_clean]
    · cases repo with
      | none => simp [image_release, is_release, is_clean]
      | some r =>
        simp [head_version] at hnd
        by_cases hclean : is_clean (some r) = true
        · simp [image_release, is_release, hclean, hnd]
        · simp only [Bool.not_eq_true] at hclean
          simp [image_release, is_release, hclean]
  · intro name r arch owner registry docs hclean hnd hc
    have hcl : is_clean (some r) = true := by simp [is_clean, hclean]
    simp [image_release, is_release, hcl, hnd, assert_canonical_arch, hc, head_version]

/-- Concrete instantiations of `c4_image_release`: a dirty repository is
rejected; a clean head-tagged repository with head tag `v1.2.3!` gets the
sanitized tag. -/
theorem c4_image_release_witness :
    image_release (fun a => a == "amd64") "foo"
        (some ⟨some "repo", "sha", false, "b", "v1", "v1", 1, 0⟩) "amd64" "o" "r" false
      = .error (.ValueError "The project repository is not in a release state")
    ∧ image_release (fun a => a == "amd64") "foo"
        (some ⟨some "repo", "sha", false, "b", "v1.2.3!", "v1.2.3!", 0, 0⟩) "amd64" "o" "r" false
      = .ok "r/o/foo:v1.2.3--amd64" := by
  constructor
  · exact (c4_image_release (fun a => a == "amd64")).1 "foo" _ "amd64" "o" "r" false
      (Or.inl ⟨_, rfl, by decide⟩)
  · have h := (c4_image_release (fun a => a == "amd64")).2.1 "foo"
      ⟨some "repo", "sha", false, "b", "v1.2.3!", "v1.2.3!", 0, 0⟩ "amd64" "o" "r" false
      (by decide) (by decide) (by decide)
    exact h.trans (congrArg Except.ok (by decide))

/-- Python dictionary lookup `md[k]` on an association list built from pairs
in insertion order: on duplicate keys the last insertion wins, and a missing
key yields `none` (Python raises `KeyError`). -/
def pyDictGet (md : List (String × String)) (k : String) : Option String :=
  (md.reverse.find? (fun p => p.1 == k)).map (fun p => p.2)

/-- Python `k in md` on the same association-list model of a dictionary. -/
def hasKey (md : List (String × String)) (k : String) : Bool :=
  md.any (fun p => p.1 == k)

/-- Fallback name used by both `DTProjectV4.name` and `DTProjectV1to3.name`:
`self._repository.name if (self._repository and self._repository.name) else
os.path.basename(self.path)` (Python truthiness on the repository name). -/
def repoNameFallback (repo : Option Repository) (basename : String) : String :=
  match repo with
  | some r =>
    match r.name with
    | some n => if n ≠ "" then n else basename
    | none => basename
  | none => basename

/-- Embedding of the property `DTProjectV4.name`:
`(self._layers.self.name or fallback).lower()`. -/
def name_v4 (selfName : String) (repo : Option Repository) (basename : String) : String :=
  (if selfName ≠ "" then selfName else repoNameFallback repo basename).toLower

/-- Embedding of the property `DTProjectV1to3.name`:
`self._project_info.get("NAME", fallback).lower()`. -/
def name_v1to3 (info : List (String × String)) (repo : Option Repository)
    (basename : String) : String :=
  ((pyDictGet info "NAME").getD (repoNameFallback repo basename)).toLower

/-- Descriptor-declared name of a layered project: the `self` layer's name,
where (by Python truthiness) an empty string counts as not declared. -/
def declared_v4 (selfName : String) : Option String :=
  if selfName ≠ "" then some selfName else none

/-- Descriptor-declared name of a legacy project: the `NAME` key of the
metadata mapping, when present. -/
def declared_legacy (info : List (String × String)) : Option String :=
  pyDictGet info "NAME"

/-- Repository name available from a resolved version-control identity: the
repository must be present and its name non-null and non-empty. -/
def resolvedRepoName (repo : Option Repository) : Option String :=
  match repo with
  | some r =>
    match r.name with
    | some n => if n ≠ "" then some n else none
    | none => none
  | none => none

/-- Name-resolution chain exactly as the spec words it: explicit
descriptor-declared name, otherwise repository name, otherwise directory base
name; the result is always lower-cased. -/
def specResolvedName (declared repoName : Option String) (basename : String) : String :=
  (declared.getD (repoName.getD basename)).toLower

theorem repoNameFallback_eq (repo : Option Repository) (basename : String) :
    repoNameFallback repo basename = (resolvedRepoName repo).getD basename := by
  cases repo with
  | none => rfl
  | some r =>
    cases h : r.name with
    | none => simp [repoNameFallback, resolvedRepoName, h]
    | some n =>
      by_cases hn : n = "" <;> simp [repoNameFallback, resolvedRepoName, h, hn]

/-- C7: for both descriptor formats, the resolved project name follows the
precedence chain (explicit descriptor-declared name, else repository name when
a version-control identity with a usable name was resolved, else the directory
base name) and is always lower-cased. -/
theorem c7_name_resolution (selfName basename : String) (repo : Option Repository)
    (info : List (String × String)) :
    name_v4 selfName repo basename
      = specResolvedName (declared_v4 selfName) (resolvedRepoName repo) basename
    ∧ name_v1to3 info repo basename
      = specResolvedName (declared_legacy info) (resolvedRepoName repo) basename := by
  constructor
  · by_cases h : selfName = "" <;>
      simp [name_v4, declared_v4, specResolvedName, h, repoNameFallback_eq]
  · cases h : pyDictGet info "NAME" <;>
      simp [name_v1to3, declared_legacy, specResolvedName, h, repoNameFallback_eq]

/-- Concrete instantiation of `c7_name_resolution`: a declared name wins over
the repository name and is lower-cased. -/
theorem c7_name_resolution_witness :
    name_v4 "MyName" (some ⟨some "Repo", "sha", false, "b", "v", "v", 0, 0⟩) "Dir"
      = specResolvedName (declared_v4 "MyName")
          (resolvedRepoName (some ⟨some "Repo", "sha", false, "b", "v", "v", 0, 0⟩)) "Dir" :=
  (c7_name_resolution "MyName" "Dir" (some ⟨some "Repo", "sha", false, "b", "v", "v", 0, 0⟩) []).1

/-- Embedding of `DTProject.update_cached_recipe`. The external collaborator
`update_recipe` is abstracted by its boolean result `update_result`; the code
consults it only when a recipe is needed and no custom recipe directory is
set. -/
def update_cached_recipe (needs_recipe : Bool) (custom_recipe_dir : Option String)
    (update_result : Bool) : Bool :=
  if needs_recipe && !pyTruthy custom_recipe_dir then update_result else false

/-- Embedding of `DTProject.ensure_recipe_updated` (a direct alias of
`update_cached_recipe`). -/
def ensure_recipe_updated (needs_recipe : Bool) (custom_recipe_dir : Option String)
    (update_result : Bool) : Bool :=
  update_cached_recipe needs_recipe custom_recipe_dir update_result

/-- Embedding of `DTProject.ensure_recipe_exists`. The recipe directory
computation and the `clone_recipe` collaborator are abstracted: `exists_before`
is the existence of the recipe directory before cloning, `cloned` the
collaborator's result, and `exists_after` the directory's existence after the
clone attempt. -/
def ensure_recipe_exists (needs_recipe : Bool) (exists_before cloned exists_after : Bool) :
    Except PyErr Unit :=
  if !needs_recipe then .ok ()
  else if !exists_before then
    if !cloned then .error (.RecipeProjectNotFound "Recipe repository could not be downloaded.")
    else if !exists_after then .error (.RecipeProjectNotFound "Recipe not found")
    else .ok ()
  else .ok ()

/-- C8: with a custom recipe directory override set, `update_cached_recipe`
(and its alias `ensure_recipe_updated`) reports false without consulting the
update collaborator (the result is independent of `update_result`); and
`ensure_recipe_exists` fails with `RecipeProjectNotFound` when, after
delegating cloning, the recipe directory still does not exist. -/
theorem c8_recipe_ops (custom : Option String) (h : pyTruthy custom = true) :
    (∀ needs_recipe update_result,
      update_cached_recipe needs_recipe custom update_result = false)
    ∧ (∀ needs_recipe update_result,
        ensure_recipe_updated needs_recipe custom update_result = false)
    ∧ (∀ cloned, ∃ msg,
        ensure_recipe_exists true false cloned false = .error (.RecipeProjectNotFound msg)) := by
  refine ⟨?_, ?_, ?_⟩
  · intro needs upd
    simp [update_cached_recipe, h]
  · intro needs upd
    simp [ensure_recipe_updated, update_cached_recipe, h]
  · intro cloned
    cases cloned with
    | false => exact ⟨"Recipe repository could not be downloaded.", rfl⟩
    | true => exact ⟨"Recipe not found", rfl⟩

/-- Concrete instantiation of `c8_recipe_ops` with the override
`/custom/recipe`. -/
theorem c8_recipe_ops_witness :
    update_cached_recipe true (some "/custom/recipe") true = false
    ∧ (∃ msg, ensure_recipe_exists true false true false
        = .error (.RecipeProjectNotFound msg)) :=
  ⟨(c8_recipe_ops (some "/custom/recipe") (by decide)).1 true true,
   (c8_recipe_ops (some "/custom/recipe") (by decide)).2.2 true⟩

/-- Embedding of the property `DTProject.needs_recipe`. -/
def needs_recipe (ptype : String) : Bool :=
  ptype == "template-exercise"

/-- Embedding of the property `DTProjectV4.metadata`: the backward-compatible
four-key view of a layered project. -/
def metadata_v4 (version ptype type_version path : String) : List (String × String) :=
  [("VERSION", version), ("TYPE", ptype), ("TYPE_VERSION", type_version), ("PATH", path)]

/-- Embedding of the property `DTProject.recipe_dir`. The external
collaborator `get_recipe_project_dir` is abstracted as `g`; Python dictionary
access on the metadata mapping is modelled by `pyDictGet`, raising `KeyError`
on a missing key. Argument evaluation order follows the call site:
repository, then `self._recipe_version or self.metadata["RECIPE_BRANCH"]`,
then location. -/
def recipe_dir (g : String → String → String → String) (ptype : String)
    (custom_recipe_dir recipe_version : Option String)
    (md : List (String × String)) : Except PyErr (Option String) :=
  if !needs_recipe ptype then .ok none
  else if pyTruthy custom_recipe_dir then .ok custom_recipe_dir
  else
    match pyDictGet md "RECIPE_REPOSITORY" with
    | none => .error (.KeyError "RECIPE_REPOSITORY")
    | some repo =>
      let branchE : Except PyErr String :=
        if pyTruthy recipe_version then .ok (recipe_version.getD "")
        else
          match pyDictGet md "RECIPE_BRANCH" with
          | none => .error (.KeyError "RECIPE_BRANCH")
          | some b => .ok b
      match branchE with
      | .error e => .error e
      | .ok branch =>
        match pyDictGet md "RECIPE_LOCATION" with
        | none => .error (.KeyError "RECIPE_LOCATION")
        | some loc => .ok (some (g repo branch loc))

/-- C9: the layered (v4) metadata view is exactly the four-key mapping
`VERSION`, `TYPE`, `TYPE_VERSION`, `PATH` (with the corresponding values), so
on a layered project of the recipe-consuming type `template-exercise` with no
custom recipe directory override, `recipe_dir` fails with a missing-key error
on `RECIPE_REPOSITORY`. -/
theorem c9_v4_metadata_recipe_dir (g : String → String → String → String)
    (version type_version path : String) (recipe_version : Option String) :
    (∀ k, hasKey (metadata_v4 version "template-exercise" type_version path) k = true
      ↔ (k = "VERSION" ∨ k = "TYPE" ∨ k = "TYPE_VERSION" ∨ k = "PATH"))
    ∧ pyDictGet (metadata_v4 version "template-exercise" type_version path) "VERSION"
        = some version
    ∧ pyDictGet (metadata_v4 version "template-exercise" type_version path) "TYPE"
        = some "template-exercise"
    ∧ pyDictGet (metadata_v4 version "template-exercise" type_version path) "TYPE_VERSION"
        = some type_version
    ∧ pyDictGet (metadata_v4 version "template-exercise" type_version path) "PATH"
        = some path
    ∧ recipe_dir g "template-exercise" none recipe_version
        (metadata_v4 version "template-exercise" type_version path)
        = .error (.KeyError "RECIPE_REPOSITORY") := by
  refine ⟨?_, rfl, rfl, rfl, rfl, rfl⟩
  intro k
  constructor
  · intro hk
    simp only [hasKey, metadata_v4, List.any_cons, List.any_nil, Bool.or_false,
      Bool.or_eq_true, beq_iff_eq] at hk
    rcases hk with h | h | h | h
    · exact Or.inl h.symm
    · exact Or.inr (Or.inl h.symm)
    · exact Or.inr (Or.inr (Or.inl h.symm))
    · exact Or.inr (Or.inr (Or.inr h.symm))
  · intro hk
    rcases hk with rfl | rfl | rfl | rfl <;> rfl

/-- Concrete instantiation of `c9_v4_metadata_recipe_dir`. -/
theorem c9_v4_metadata_recipe_dir_witness :
    recipe_dir (fun _ _ _ => "/cache") "template-exercise" none none
        (metadata_v4 "1.0" "template-exercise" "4" "/p")
      = .error (.KeyError "RECIPE_REPOSITORY") :=
  (c9_v4_metadata_recipe_dir (fun _ _ _ => "/cache") "1.0" "4" "/p" none).2.2.2.2.2

/-- Embedding of `DTProject.configurations`. The optional
`configurations.yaml` is abstracted by its presence flag
`config_file_isfile` and the external `parse_configurations` collaborator by
its result `parse_result`. Python's `int(self.type_version)` is modelled by
`pyInt` (a `ValueError` propagates uncaught). -/
def configurations (type_version : String) (config_file_isfile : Bool)
    (parse_result : List (String × String)) : Except PyErr (List (String × String)) :=
  match pyInt type_version with
  | none => .error (.ValueError ("invalid literal for int() with base 10: " ++ type_version))
  | some v =>
    if v < 2 then
      .error (.NotImplementedError
        "Project configurations were introduced with template types v2. Your project does not support them.")
    else
      let cfgs : List (String × String) := []
      let cfgs := if type_version == "2" && config_file_isfile then parse_result else cfgs
      .ok cfgs

/-- Behavior of `configurations` as the code actually implements it (the
amended claim): integer template versions below 2 raise not-supported; version
exactly "2" parses the optional file; every other version whose string parses
to an integer at least 2 returns an empty mapping without error; non-integer
versions fail with a value error. -/
def specConfigurations (type_version : String) (config_file_isfile : Bool)
    (parse_result : List (String × String)) : Except PyErr (List (String × String)) :=
  match pyInt type_version with
  | none => .error (.ValueError ("invalid literal for int() with base 10: " ++ type_version))
  | some v =>
    if v < 2 then
      .error (.NotImplementedError
        "Project configurations were introduced with template types v2. Your project does not support them.")
    else if type_version = "2" then
      if config_file_isfile then .ok parse_result else .ok []
    else
      .ok []

/-- C6 counterexample: on template version "3" the `configurations` operation
does not raise a "not supported" error — it returns the empty mapping. -/
theorem c6_counterexample :
    configurations "3" false [] = Except.ok []
    ∧ ∀ e, configurations "3" false [] ≠ Except.error e := by
  constructor
  · rfl
  · intro e h
    rw [show configurations "3" false [] = Except.ok [] from rfl] at h
    exact Except.noConfusion h

/-- C6 (amended): `configurations` parses the optional `configurations.yaml`
only for template version "2"; integer versions below 2 raise a not-supported
error; versions parsing to an integer of at least 2 but not equal to the
string "2" return an empty mapping without raising; non-integer versions fail
with a value error. -/
theorem c6_configurations_amended :
    (∀ type_version config_file_isfile parse_result,
      configurations type_version config_file_isfile parse_result
        = specConfigurations type_version config_file_isfile parse_result)
    ∧ (∀ p, configurations "1" true p
        = .error (.NotImplementedError
            "Project configurations were introduced with template types v2. Your project does not support them."))
    ∧ (∀ p, configurations "2" true p = .ok p)
    ∧ (∀ p, configurations "2" false p = .ok [])
    ∧ (∀ p, configurations "4" true p = .ok []) := by
  refine ⟨?_, fun p => rfl, fun p => rfl, fun p => rfl, fun p => rfl⟩
  intro tv b p
  unfold configurations specConfigurations
  cases pyInt tv with
  | none => rfl
  | some v =>
    by_cases hv : v < 2
    · simp [hv]
    · by_cases htv : tv = "2" <;> cases b <;> simp [hv, htv]

/-- Concrete instantiation of `c6_configurations_amended`: version "2" with
the file present returns the parsed mapping. -/
theorem c6_configurations_amended_witness :
    configurations "2" true [("default", "cfg")] = .ok [("default", "cfg")] :=
  c6_configurations_amended.2.2.1 [("default", "cfg")]

/-- Position of the last `.` in a list of characters, if any (Python
`str.rfind('.')` restricted to found positions). -/
def rfindDot (cs : List Char) : Option Nat :=
  cs.enum.foldl (fun acc p => if p.2 == '.' then some p.1 else acc) none

/-- Embedding of `pathlib.PurePath.stem` applied to a final path component:
the component without its suffix, where the suffix starts at the last dot
provided that dot is neither the first nor the last character. -/
def pyStem (s : String) : String :=
  let cs := s.data
  match rfindDot cs with
  | some i => if 0 < i ∧ i < cs.length - 1 then ⟨cs.take i⟩ else s
  | none => s

/-- Observation of one `launchers` directory (project-side or recipe-side):
its existence, its `os.listdir` entries in listing order, and per-entry
regular-file, executable-bit and shebang-first-line oracles. -/
structure LaunchDir where
  dir_exists : Bool
  entries : List String
  isfile : String → Bool
  executable : String → Bool
  has_shebang : String → Bool

/-- Launcher stems found in one directory, as the loop body of
`DTProject.launchers` computes them: regular files that are executable or
start with a shebang, mapped to their stems, in listing order. -/
def scanLaunchers (d : LaunchDir) : List String :=
  ((d.entries.filter d.isfile).filter (fun f => d.executable f || d.has_shebang f)).map pyStem

/-- Embedding of the property `DTProject.launchers`. The scanned roots are
the project itself and, when a recipe is required, the recipe; inside the
loop the accumulator is assigned (not extended) whenever a root's
`launchers` directory exists, exactly as the source does. -/
def launchers (type_version : String) (needs_recipe : Bool)
    (project recipe : LaunchDir) : Except PyErr (List String) :=
  let ver : Int :=
    match pyInt type_version with
    | some n => n
    | none => -1
  if ver < 2 then
    .error (.NotImplementedError "Only projects with template type v2+ support launchers.")
  else
    let roots := [project] ++ (if needs_recipe then [recipe] else [])
    .ok (roots.foldl (fun acc d => if !d.dir_exists then acc else scanLaunchers d) [])

/-- Project-side launchers directory holding the executable `alpha.sh`. -/
def projLaunchDir : LaunchDir :=
  ⟨true, ["alpha.sh"], fun _ => true, fun _ => true, fun _ => false⟩

/-- Recipe-side launchers directory holding the executable `beta.sh`. -/
def recipeLaunchDir : LaunchDir :=
  ⟨true, ["beta.sh"], fun _ => true, fun _ => true, fun _ => false⟩

/-- C5 (failing input): on a template-v3 project that requires a recipe,
with the project's launchers directory holding `alpha.sh` and the recipe's
holding `beta.sh`, the code returns only `["beta"]` — the non-colliding
project stem `alpha` is discarded, although scanning the project alone yields
`["alpha"]`. The loop body overwrites the accumulated list instead of merging
it, contradicting the source's own comment "we return launchers from both
recipe and meat". -/
theorem c5_launchers_overwrite :
    launchers "3" true projLaunchDir recipeLaunchDir = .ok ["beta"]
    ∧ launchers "3" false projLaunchDir recipeLaunchDir = .ok ["alpha"] :=
  ⟨rfl, rfl⟩

/-- Message raised by the legacy parser for a missing required key. -/
def missingKeyMsg (metafile k : String) : String :=
  "The metadata file '" ++ metafile ++ "' does not contain the key '" ++ k ++ "'."

/-- Whitespace stripping on both ends of a character list (Python
`str.strip()`). -/
def trimChars (cs : List Char) : List Char :=
  ((cs.dropWhile Char.isWhitespace).reverse.dropWhile Char.isWhitespace).reverse

/-- Python `str.strip()`. -/
def pyStrip (s : String) : String :=
  ⟨trimChars s.data⟩

/-- Split of a character list at every occurrence of `c` (Python
`str.split(c)`): the result always has one more part than there are
occurrences of `c`. -/
def splitOnChar (c : Char) (cs : List Char) : List (List Char) :=
  cs.foldr
    (fun x acc =>
      if x == c then [] :: acc
      else
        match acc with
        | a :: rest => (x :: a) :: rest
        | [] => [[x]])
    [[]]

/-- Line preprocessing of `DTProjectV1to3._get_project_info`: strip every
line, then drop empty lines and comment lines. -/
def cleanLines (lines : List String) : List String :=
  (lines.map pyStrip).filter
    (fun l => 0 < l.data.length && !(match l.data with | c :: _ => c == '#' | [] => false))

/-- Parse of one `KEY=value` line: the Python unpacking `key, val =
line.split("=")` succeeds only with exactly one `=`; the key is stripped and
upper-cased, the value stripped. `none` models the uncaught `ValueError`. -/
def parseLine (line : String) : Option (String × String) :=
  match splitOnChar '=' line.data with
  | [k, v] => some (⟨(trimChars k).map Char.toUpper⟩, ⟨trimChars v⟩)
  | _ => none

/-- Metadata mapping parsed from the cleaned lines of a `.dtproject` file. -/
def parse_metadata (lines : List String) : Option (List (String × String)) :=
  (cleanLines lines).mapM parseLine

/-- Embedding of `DTProjectV1to3._get_project_info`. The static required-key
tables (in `constants.py`, outside the embedded sources) are abstracted:
`rmk` maps a version string to its required keys (`REQUIRED_METADATA_KEYS`,
with the version-agnostic set under `"*"`), `rmtk` models
`REQUIRED_METADATA_PER_TYPE_KEYS.get(type, {}).get(version, [])`. Filesystem
facts are the booleans `path_exists` and `metafile_exists`; `lines` is the
metadata file content. -/
def get_project_info (rmk : String → Option (List String))
    (rmtk : String → String → List String) (path_exists metafile_exists : Bool)
    (lines : List String) (path metafile : String) :
    Except PyErr (List (String × String)) :=
  if !path_exists then
    .error (.OSError ("The project path '" ++ path ++ "' does not exist."))
  else if !metafile_exists then
    .error (.DTProjectNotFound ("The path '" ++ path ++ "' does not appear to be a Duckietown project."))
  else if lines.isEmpty then
    .error (.MalformedDTProject ("The metadata file '" ++ metafile ++ "' is empty."))
  else
    match parse_metadata lines with
    | none => .error (.ValueError "not enough values to unpack")
    | some metadata =>
      match rmk "*" with
      | none => .error (.KeyError "*")
      | some agnostic =>
        match agnostic.find? (fun k => !hasKey metadata k) with
        | some k => .error (.MalformedDTProject (missingKeyMsg metafile k))
        | none =>
          match pyDictGet metadata "TYPE_VERSION" with
          | none => .error (.KeyError "TYPE_VERSION")
          | some version =>
            if version == "*" || (rmk version).isNone then
              .error (.UnsupportedDTProjectVersion
                ("The project version " ++ version ++ " is not supported."))
            else
              match ((rmk version).getD []).find? (fun k => !hasKey metadata k) with
              | some k => .error (.MalformedDTProject (missingKeyMsg metafile k))
              | none =>
                match pyDictGet metadata "TYPE" with
                | none => .error (.KeyError "TYPE")
                | some ptype =>
                  match (rmtk ptype version).find? (fun k => !hasKey metadata k) with
                  | some k => .error (.MalformedDTProject (missingKeyMsg metafile k))
                  | none => .ok (metadata ++ [("PATH", path)])

theorem find_missing_none {md : List (String × String)} {ks : List String}
    (h : ∀ k ∈ ks, hasKey md k = true) :
    ks.find? (fun k => !hasKey md k) = none := by
  rw [List.find?_eq_none]
  intro x hx
  simp [h x hx]

/-- C2: on a legacy metadata file whose parsed mapping contains every
version-agnostic required key, a `TYPE_VERSION` that is the wildcard or
absent from the required-field table makes resolution fail with
`UnsupportedDTProjectVersion` (so never `MalformedDTProject`); and validation
proceeds in the order: version-agnostic required keys, then the
`TYPE_VERSION` check, then version-specific required keys, then
type-and-version-specific required keys, ending in success with the resolved
path injected under `PATH`. -/
theorem c2_legacy_validation (rmk : String → Option (List String))
    (rmtk : String → String → List String) (lines : List String)
    (path metafile : String) (metadata : List (String × String))
    (agnostic : List String) (hne : lines.isEmpty = false)
    (hparse : parse_metadata lines = some metadata)
    (hstar : rmk "*" = some agnostic) :
    ((∀ k ∈ agnostic, hasKey metadata k = true) →
      ∀ v, pyDictGet metadata "TYPE_VERSION" = some v → (v = "*" ∨ rmk v = none) →
      get_project_info rmk rmtk true true lines path metafile
        = .error (.UnsupportedDTProjectVersion
            ("The project version " ++ v ++ " is not supported.")))
    ∧ (∀ k, agnostic.find? (fun k => !hasKey metadata k) = some k →
        get_project_info rmk rmtk true true lines path metafile
          = .error (.MalformedDTProject (missingKeyMsg metafile k)))
    ∧ ((∀ k ∈ agnostic, hasKey metadata k = true) →
        ∀ v vkeys, pyDictGet metadata "TYPE_VERSION" = some v → v ≠ "*" →
        rmk v = some vkeys →
        ∀ k, vkeys.find? (fun k => !hasKey metadata k) = some k →
        get_project_info rmk rmtk true true lines path metafile
          = .error (.MalformedDTProject (missingKeyMsg metafile k)))
    ∧ ((∀ k ∈ agnostic, hasKey metadata k = true) →
        ∀ v vkeys t, pyDictGet metadata "TYPE_VERSION" = some v → v ≠ "*" →
        rmk v = some vkeys → (∀ k ∈ vkeys, hasKey metadata k = true) →
        pyDictGet metadata "TYPE" = some t →
        ∀ k, (rmtk t v).find? (fun k => !hasKey metadata k) = some k →
        get_project_info rmk rmtk true true lines path metafile
          = .error (.MalformedDTProject (missingKeyMsg metafile k)))
    ∧ ((∀ k ∈ agnostic, hasKey metadata k = true) →
        ∀ v vkeys t, pyDictGet metadata "TYPE_VERSION" = some v → v ≠ "*" →
        rmk v = some vkeys → (∀ k ∈ vkeys, hasKey metadata k = true) →
        pyDictGet metadata "TYPE" = some t →
        (∀ k ∈ rmtk t v, hasKey metadata k = true) →
        get_project_info rmk rmtk true true lines path metafile
          = .ok (metadata ++ [("PATH", path)])) := by
  refine ⟨?_, ?_, ?_, ?_, ?_⟩
  · intro hall v hv hbad
    rcases hbad with rfl | hnone <;>
      simp [get_project_info, hne, hparse, hstar, find_missing_none hall, hv, *]
  · intro k hk
    simp [get_project_info, hne, hparse, hstar, hk]
  · intro hall v vkeys hv hvne hvk k hk
    have hbeq : (v == "*") = false := by simp [hvne]
    simp [get_project_info, hne, hparse, hstar, find_missing_none hall, hv, hbeq, hvk, hk]
  · intro hall v vkeys t hv hvne hvk hvall ht k hk
    have hbeq : (v == "*") = false := by simp [hvne]
    simp [get_project_info, hne, hparse, hstar, find_missing_none hall, hv, hbeq, hvk,
      find_missing_none hvall, ht, hk]
  · intro hall v vkeys t hv hvne hvk hvall ht htall
    have hbeq : (v == "*") = false := by simp [hvne]
    simp [get_project_info, hne, hparse, hstar, find_missing_none hall, hv, hbeq, hvk,
      find_missing_none hvall, ht, find_missing_none htall]

/-- Required-key table used by the C2 witness: only the version-agnostic
entry is registered, so every concrete version is unsupported. -/
def rmkW : String → Option (List String) :=
  fun v => if v = "*" then some ["TYPE", "TYPE_VERSION"] else none

/-- Type-specific required-key table used by the C2 witness: empty. -/
def rmtkW : String → String → List String :=
  fun _ _ => []

/-- Concrete instantiation of `c2_legacy_validation`: a file declaring the
wildcard `TYPE_VERSION=*` with all version-agnostic keys present fails with
`UnsupportedDTProjectVersion`. -/
theorem c2_legacy_validation_witness :
    get_project_info rmkW rmtkW true true ["TYPE=template-basic", "TYPE_VERSION=*"]
        "/p" "/p/.dtproject"
      = .error (.UnsupportedDTProjectVersion
          ("The project version " ++ "*" ++ " is not supported.")) :=
  (c2_legacy_validation rmkW rmtkW ["TYPE=template-basic", "TYPE_VERSION=*"]
      "/p" "/p/.dtproject" [("TYPE", "template-basic"), ("TYPE_VERSION", "*")]
      ["TYPE", "TYPE_VERSION"] rfl (by decide) (by decide)).1
    (by decide) "*" (by decide) (Or.inl rfl)

/-- Filesystem paths handled by the glob-expanding path resolvers, modelled
as lists of path components (absolute, no trailing separator — the canonical
form `os.path.abspath(...).rstrip("/")` produces). -/
abbrev PathC := List String

/-- Test of `local.endswith("*")` on a component path: the last component
ends in the wildcard character. -/
def endsStar (loc : PathC) : Bool :=
  match loc.getLast? with
  | some s =>
    match s.data.getLast? with
    | some c => c == '*'
    | none => false
  | none => false

/-- Last path component of a match, as used by `Path(loc).stem` (`""` is
unreachable under the theorems' hypotheses). -/
def lastComponent (p : PathC) : String :=
  (p.getLast?.getD "")

/-- Shared body of `DTProject.code_paths` and `DTProject.assets_paths` after
the table lookup (the two methods duplicate this code verbatim): `root` is
the effective root (absolute override root or project path), the glob oracle
is consulted on the pattern joined to the *project path*, non-directories are
discarded, each match's project-path prefix is replaced by `root`
(`os.path.join(root, os.path.relpath(loc, self.path))`), and each destination
appends the stem of its (rewritten) match to the fixed destination. -/
def resolve_mapping_paths (f : String → PathC × PathC) (name : String)
    (projectPath root : PathC) (glob : PathC → List PathC)
    (isdir : PathC → Bool) : List PathC × List PathC :=
  let ld := f name
  if endsStar ld.1 then
    let local_abs := projectPath ++ ld.1
    let locals0 := glob local_abs
    let locals1 := locals0.filter isdir
    let locals := locals1.map (fun m => root ++ m.drop projectPath.length)
    let destinations := locals.map (fun m => ld.2 ++ [pyStem (lastComponent m)])
    (locals, destinations)
  else
    ([root ++ ld.1], [ld.2])

/-- Embedding of `DTProject.code_paths`. The static `TEMPLATE_TO_SRC` table
(in `constants.py`, outside the embedded sources) is abstracted as `table`,
keyed by project type and template version. -/
def code_paths (table : String → String → Option (String → PathC × PathC))
    (ptype type_version name : String) (projectPath : PathC) (root? : Option PathC)
    (glob : PathC → List PathC) (isdir : PathC → Bool) :
    Except PyErr (List PathC × List PathC) :=
  match table ptype type_version with
  | none =>
    .error (.UnsupportedDTProjectVersion
      ("Template " ++ ptype ++ " v" ++ type_version ++ " for project "
        ++ String.intercalate "/" projectPath ++ " is not supported"))
  | some f => .ok (resolve_mapping_paths f name projectPath (root?.getD projectPath) glob isdir)

/-- Embedding of `DTProject.assets_paths` (same body as `code_paths`, against
the `TEMPLATE_TO_ASSETS` table). -/
def assets_paths (table : String → String → Option (String → PathC × PathC))
    (ptype type_version name : String) (projectPath : PathC) (root? : Option PathC)
    (glob : PathC → List PathC) (isdir : PathC → Bool) :
    Except PyErr (List PathC × List PathC) :=
  match table ptype type_version with
  | none =>
    .error (.UnsupportedDTProjectVersion
      ("Template " ++ ptype ++ " v" ++ type_version ++ " for project "
        ++ String.intercalate "/" projectPath ++ " is not supported"))
  | some f => .ok (resolve_mapping_paths f name projectPath (root?.getD projectPath) glob isdir)

/-- Pattern expansion exactly as the claim words it: destinations append the
match's *final path segment* to the fixed destination. -/
def spec_pattern_pairs_claimed (f : String → PathC × PathC) (name : String)
    (projectPath root : PathC) (glob : PathC → List PathC)
    (isdir : PathC → Bool) : List PathC × List PathC :=
  let ld := f name
  if endsStar ld.1 then
    let ms := (glob (projectPath ++ ld.1)).filter isdir
    (ms.map (fun m => root ++ m.drop projectPath.length),
     ms.map (fun m => ld.2 ++ [lastComponent m]))
  else
    ([root ++ ld.1], [ld.2])

/-- Pattern expansion as amended: destinations append the *stem* of the
match's final path segment (extension stripped) to the fixed destination;
everything else as the claim words it. -/
def spec_pattern_pairs (f : String → PathC × PathC) (name : String)
    (projectPath root : PathC) (glob : PathC → List PathC)
    (isdir : PathC → Bool) : List PathC × List PathC :=
  let ld := f name
  if endsStar ld.1 then
    let ms := (glob (projectPath ++ ld.1)).filter isdir
    (ms.map (fun m => root ++ m.drop projectPath.length),
     ms.map (fun m => ld.2 ++ [pyStem (lastComponent m)]))
  else
    ([root ++ ld.1], [ld.2])

theorem getLast?_drop_of_lt {α : Type} (m : List α) (n : Nat) (h : n < m.length) :
    (m.drop n).getLast? = m.getLast? := by
  have hne : m.drop n ≠ [] := by
    intro hnil
    have := List.length_drop n m
    rw [hnil] at this
    simp at this
    omega
  conv_rhs => rw [← List.take_append_drop n m]
  rw [List.getLast?_append_of_ne_nil _ hne]

theorem lastComponent_rewrite {m : List String} {projectPath root : PathC}
    (h : projectPath.length < m.length) :
    lastComponent (root ++ m.drop projectPath.length) = lastComponent m := by
  have hne : m.drop projectPath.length ≠ [] := by
    intro hnil
    have := List.length_drop projectPath.length m
    rw [hnil] at this
    simp at this
    omega
  unfold lastComponent
  rw [List.getLast?_append_of_ne_nil _ hne, getLast?_drop_of_lt m _ h]

theorem resolve_eq_spec (f : String → PathC × PathC) (name : String)
    (projectPath root : PathC) (glob : PathC → List PathC) (isdir : PathC → Bool)
    (h : ∀ m ∈ glob (projectPath ++ (f name).1), projectPath.length < m.length) :
    resolve_mapping_paths f name projectPath root glob isdir
      = spec_pattern_pairs f name projectPath root glob isdir := by
  unfold resolve_mapping_paths spec_pattern_pairs
  cases hs : endsStar (f name).1 with
  | false => simp [hs]
  | true =>
    simp only [hs, if_true]
    refine congrArg _ ?_
    rw [List.map_map]
    refine List.map_congr_left ?_
    intro m hm
    have hmem : m ∈ glob (projectPath ++ (f name).1) := (List.mem_filter.mp hm).1
    simp only [Function.comp]
    rw [lastComponent_rewrite (h m hmem)]

theorem resolve_glob_congr (f : String → PathC × PathC) (name : String)
    (projectPath root : PathC) (glob glob' : PathC → List PathC) (isdir : PathC → Bool)
    (h : glob (projectPath ++ (f name).1) = glob' (projectPath ++ (f name).1)) :
    resolve_mapping_paths f name projectPath root glob isdir
      = resolve_mapping_paths f name projectPath root glob' isdir := by
  unfold resolve_mapping_paths
  cases hs : endsStar (f name).1 <;> simp [hs, h]

/-- C1 (amended): whenever the (type, type-version) pair has a mapping entry,
`code_paths` and `assets_paths` glob a wildcard local-spec relative to the
project path (and depend on the glob oracle only at that pattern, never at
the override root), discard non-directory matches, rewrite each match's
prefix from the project path to the effective root (override root or project
path), and pair each match with the fixed destination extended by the *stem*
of that match's final path segment, preserving match order; a non-pattern
local-spec yields exactly one (root ++ local-spec, destination) pair. -/
theorem c1_path_resolution :
    (∀ table ptype type_version (f : String → PathC × PathC) name projectPath
        (root? : Option PathC) glob isdir,
      table ptype type_version = some f →
      (∀ m ∈ glob (projectPath ++ (f name).1), projectPath.length < m.length) →
      code_paths table ptype type_version name projectPath root? glob isdir
        = .ok (spec_pattern_pairs f name projectPath (root?.getD projectPath) glob isdir))
    ∧ (∀ table ptype type_version (f : String → PathC × PathC) name projectPath
          (root? : Option PathC) glob isdir,
        table ptype type_version = some f →
        (∀ m ∈ glob (projectPath ++ (f name).1), projectPath.length < m.length) →
        assets_paths table ptype type_version name projectPath root? glob isdir
          = .ok (spec_pattern_pairs f name projectPath (root?.getD projectPath) glob isdir))
    ∧ (∀ table ptype type_version (f : String → PathC × PathC) name projectPath
          (root? : Option PathC) glob glob' isdir,
        table ptype type_version = some f →
        glob (projectPath ++ (f name).1) = glob' (projectPath ++ (f name).1) →
        code_paths table ptype type_version name projectPath root? glob isdir
          = code_paths table ptype type_version name projectPath root? glob' isdir) := by
  refine ⟨?_, ?_, ?_⟩
  · intro table ptype tv f name projectPath root? glob isdir ht h
    simp only [code_paths, ht]
    rw [resolve_eq_spec f name projectPath _ glob isdir h]
  · intro table ptype tv f name projectPath root? glob isdir ht h
    simp only [assets_paths, ht]
    rw [resolve_eq_spec f name projectPath _ glob isdir h]
  · intro table ptype tv f name projectPath root? glob glob' isdir ht h
    simp only [code_paths, ht]
    rw [resolve_glob_congr f name projectPath _ glob glob' isdir h]

/-- Mapping table used by the C1 counterexample and witness: every (type,
version) pair maps the project name to the pattern `packages/*` with fixed
destination `d`. -/
def tableCex : String → String → Option (String → PathC × PathC) :=
  fun _ _ => some (fun _ => (["packages", "*"], ["d"]))

/-- Glob oracle used by the C1 counterexample and witness: the pattern
`proj/packages/*` matches the single directory `proj/packages/a.b` (a
directory name containing a dot). -/
def globCex : PathC → List PathC :=
  fun p => if p = ["proj", "packages", "*"] then [["proj", "packages", "a.b"]] else []

/-- C1 counterexample: on a match whose final path segment is `a.b`, the code
produces the destination `d/a` (the stem, extension stripped), while the
claim's "final path segment" wording demands `d/a.b`; the two disagree. -/
theorem c1_counterexample :
    code_paths tableCex "template-basic" "3" "x" ["proj"] none globCex (fun _ => true)
      = .ok ([["proj", "packages", "a.b"]], [["d", "a"]])
    ∧ spec_pattern_pairs_claimed (fun _ => (["packages", "*"], ["d"])) "x" ["proj"] ["proj"]
        globCex (fun _ => true)
      = ([["proj", "packages", "a.b"]], [["d", "a.b"]])
    ∧ (["d", "a"] : PathC) ≠ ["d", "a.b"] :=
  ⟨rfl, rfl, by decide⟩

/-- Concrete instantiation of `c1_path_resolution` on the example project. -/
theorem c1_path_resolution_witness :
    code_paths tableCex "template-basic" "3" "x" ["proj"] none globCex (fun _ => true)
      = .ok (spec_pattern_pairs (fun _ => (["packages", "*"], ["d"])) "x" ["proj"] ["proj"]
          globCex (fun _ => true)) :=
  c1_path_resolution.1 tableCex "template-basic" "3" (fun _ => (["packages", "*"], ["d"]))
    "x" ["proj"] none globCex (fun _ => true) rfl
    (by
      intro m hm
      rw [show globCex (["proj"] ++ ["packages", "*"]) = [["proj", "packages", "a.b"]] from rfl]
        at hm
      rw [List.mem_singleton.mp hm]
      decide)

/-- Heap of Python list objects: references are allocation indices below
`next`, `mem` gives each reference's current contents. -/
structure Store where
  next : Nat
  mem : Nat → List String

/-- Allocation of a fresh list object holding `v`. -/
def allocList (s : Store) (v : List String) : Store × Nat :=
  (⟨s.next + 1, fun i => if i = s.next then v else s.mem i⟩, s.next)

/-- Embedding of `copy.copy` on a list: allocate a fresh object with the same
contents. -/
def copyList (s : Store) (r : Nat) : Store × Nat :=
  allocList s (s.mem r)

/-- Embedding of the property `DTProject.adapters`: `copy.copy(self._adapters)`,
where `r` is the project's internal `_adapters` reference. -/
def adapters (s : Store) (r : Nat) : Store × Nat :=
  copyList s r

/-- In-place mutation of the list object at reference `r` (any Python list
mutation replacing its contents with `v`). -/
def listStoreSet (s : Store) (r : Nat) (v : List String) : Store :=
  ⟨s.next, fun i => if i = r then v else s.mem i⟩

/-- C10: `adapters` returns a copy of the internal adapter list: the returned
reference is distinct from the project's internal one and holds equal
contents, any mutation through the returned reference leaves the internal
list unchanged, and two successive calls return equal lists. -/
theorem c10_adapters_copy (s : Store) (r : Nat) (h : r < s.next) :
    (adapters s r).2 ≠ r
    ∧ (adapters s r).1.mem (adapters s r).2 = s.mem r
    ∧ (∀ v, (listStoreSet (adapters s r).1 (adapters s r).2 v).mem r = s.mem r)
    ∧ (adapters (adapters s r).1 r).1.mem (adapters (adapters s r).1 r).2
        = (adapters s r).1.mem (adapters s r).2 := by
  have hne : r ≠ s.next := Nat.ne_of_lt h
  refine ⟨fun hc => hne hc.symm, ?_, ?_, ?_⟩
  · simp [adapters, copyList, allocList]
  · intro v
    simp [adapters, copyList, allocList, listStoreSet, hne]
  · simp [adapters, copyList, allocList, hne]

/-- Store used by the C10 witness: one allocated list `["fs", "git"]`. -/
def sampleStore : Store :=
  ⟨1, fun _ => ["fs", "git"]⟩

/-- Concrete instantiation of `c10_adapters_copy` on `sampleStore`. -/
theorem c10_adapters_copy_witness :
    (adapters sampleStore 0).2 ≠ 0
    ∧ (adapters sampleStore 0).1.mem (adapters sampleStore 0).2 = sampleStore.mem 0
    ∧ (∀ v, (listStoreSet (adapters sampleStore 0).1 (adapters sampleStore 0).2 v).mem 0
        = sampleStore.mem 0)
    ∧ (adapters (adapters sampleStore 0).1 0).1.mem (adapters (adapters sampleStore 0).1 0).2
        = (adapters sampleStore 0).1.mem (adapters sampleStore 0).2 :=
  c10_adapters_copy sampleStore 0 (by decide)

end DTProject
